import Mathlib

/-!
Formal model of RuFetch (src/main.rs, src/conf.rs): configuration
resolution with its three-tier fallback, and the per-section report
renderers of `Config::print`.

Modelling conventions:
- Styled console output (`ansi_term`) is modelled structurally: each
  `println!` becomes a `Line`, a list of painted `Seg`ments.
- Rust `u64` counts (bytes, seconds) are modelled as `Nat`; the one
  unchecked `u64` subtraction (disks) is modelled as a checked
  subtraction returning `Option`.
- Rust `f64` arithmetic `x as f64 / D` followed by `{:.2}` formatting
  is modelled as exact rational rounding to two decimal places with
  round-half-to-even (`fmt2Frac`); the concrete values exercised here
  are exactly representable in `f64`, where the two models agree.
- The file `src/types.rs` (declaring `Config`, `Time`, `MemType`, and
  their serde `Deserialize` schema) is referenced by the sources but is
  not in the source tree; those definitions are modelled from the
  specification and marked `Modelled from the spec:`.
-/

/-- Terminal colors used by the program (`ansi_term::Color`). `purple`
is `ansi_term`'s name for the ANSI magenta color. -/
inductive Color
  | red
  | green
  | blue
  | yellow
  | black
  | white
  | purple
  | cyan
deriving DecidableEq

/-- One painted segment of an output line: foreground color, background
color, bold flag, and the text. Models an `ansi_term` styled string. -/
structure Seg where
  fg : Option Color
  bg : Option Color
  bold : Bool
  text : String
deriving DecidableEq

/-- One console line (one `println!`) as the list of its segments. -/
abbrev Line := List Seg

/-- Unstyled literal text inside a format string. -/
def plainSeg (s : String) : Seg := ⟨none, none, false, s⟩

/-- Models `C.bold().paint(s)`. -/
def boldPaint (c : Color) (s : String) : Seg := ⟨some c, none, true, s⟩

/-- Models `C.on(C).paint(s)`: a solid block, same foreground and
background color. -/
def solidBlock (c : Color) (s : String) : Seg := ⟨some c, some c, false, s⟩

/-- Decimal digits of `n`, most significant first. Fuel-structured so
the kernel can evaluate it; with fuel `n + 1` this is total for `n`.
Models Rust's `Display` for unsigned integers. -/
def natDecAux : Nat → Nat → List Char
  | 0, _ => []
  | fuel + 1, n =>
    if n < 10 then [Nat.digitChar n]
    else natDecAux fuel (n / 10) ++ [Nat.digitChar (n % 10)]

/-- Decimal digit list of `n`. -/
def natDecL (n : Nat) : List Char := natDecAux (n + 1) n

/-- Decimal string of `n`, as Rust's `{}` renders an unsigned integer.
Note that Rust's `{:.2}` ignores the precision for integer arguments,
so integers are rendered with no decimal digits. -/
def natDec (n : Nat) : String := String.mk (natDecL n)

/-- Two-digit zero-padded decimal, used for the fractional part of a
2-decimal rendering. -/
def pad2 (m : Nat) : String := if m < 10 then "0" ++ natDec m else natDec m

/-- The number of hundredths in `n / d`, rounded to nearest with ties
to even: the exact-rational model of rounding `n / d` to two decimal
places, as Rust's `{:.2}` float formatting does. -/
def centsOf (n d : Nat) : Nat :=
  let s := n * 100
  let q := s / d
  let r := s % d
  if 2 * r < d then q
  else if d < 2 * r then q + 1
  else if q % 2 = 0 then q else q + 1

/-- Models `format!("{:.2}", n as f64 / d as f64)` (for the nonnegative
values this program renders): the quotient rounded to two decimal
places, printed with exactly two digits after the point. -/
def fmt2Frac (n d : Nat) : String :=
  natDec (centsOf n d / 100) ++ "." ++ pad2 (centsOf n d % 100)

/-- Models `format!("{:width$}", width = n)`: the named argument `n` is
also consumed as the positional value, so the number `n` is rendered
right-aligned, space-padded to width `n`. -/
def formatWidthVal (n : Nat) : String :=
  String.mk (List.replicate (n - (natDecL n).length) ' ' ++ natDecL n)

/-- Modelled from the spec: `src/types.rs` (declaring `Time`) is not in
the source tree; §3 of the spec gives the uptime unit enum
`{Second, Minute, Hour}`. -/
inductive Time
  | Second
  | Minute
  | Hour
deriving DecidableEq

/-- Modelled from the spec: `src/types.rs` (declaring `MemType`) is not
in the source tree; §3 of the spec gives the memory/swap unit enum
`{KB, MB, GB}`. -/
inductive MemType
  | KB
  | MB
  | GB
deriving DecidableEq

/-- Modelled from the spec: `src/types.rs` (declaring `Config`) is not
in the source tree; §3 of the spec gives the field list — twelve
boolean visibility toggles, two positive-integer swatch parameters, and
the two unit enums. A `Config` is always fully populated. -/
structure Config where
  show_os : Bool
  show_hostname : Bool
  show_uptime : Bool
  show_kernel_version : Bool
  show_memory : Bool
  show_swap : Bool
  show_de : Bool
  show_colors : Bool
  show_cpu : Bool
  show_cores : Bool
  show_disks : Bool
  show_temperature : Bool
  colors_height : Nat
  colors_width : Nat
  uptime_type : Time
  memory_type : MemType
deriving DecidableEq

/-- A TOML scalar value, as far as the Config schema needs. -/
inductive TomlVal
  | bool (b : Bool)
  | int (i : Int)
  | str (s : String)
deriving DecidableEq

/-- A parsed TOML document: key/value pairs (the schema has no nested
tables). -/
abbrev TomlDoc := List (String × TomlVal)

/-- Look up a key in a document. -/
def getField (doc : TomlDoc) (k : String) : Except String TomlVal :=
  match doc.find? (fun p => p.1 == k) with
  | some p => Except.ok p.2
  | none => Except.error ("missing field `" ++ k ++ "`")

/-- Read a mandatory boolean field. -/
def getBool (doc : TomlDoc) (k : String) : Except String Bool := do
  match ← getField doc k with
  | TomlVal.bool b => Except.ok b
  | _ => Except.error ("invalid type for field `" ++ k ++ "`")

/-- Read a mandatory nonnegative integer field. -/
def getNat (doc : TomlDoc) (k : String) : Except String Nat := do
  match ← getField doc k with
  | TomlVal.int i =>
    if i < 0 then Except.error ("invalid value for field `" ++ k ++ "`")
    else Except.ok i.toNat
  | _ => Except.error ("invalid type for field `" ++ k ++ "`")

/-- Read the mandatory `uptime_type` enum field. -/
def getTime (doc : TomlDoc) (k : String) : Except String Time := do
  match ← getField doc k with
  | TomlVal.str "Second" => Except.ok Time.Second
  | TomlVal.str "Minute" => Except.ok Time.Minute
  | TomlVal.str "Hour" => Except.ok Time.Hour
  | _ => Except.error ("unknown variant for field `" ++ k ++ "`")

/-- Read the mandatory `memory_type` enum field. -/
def getMemType (doc : TomlDoc) (k : String) : Except String MemType := do
  match ← getField doc k with
  | TomlVal.str "KB" => Except.ok MemType.KB
  | TomlVal.str "MB" => Except.ok MemType.MB
  | TomlVal.str "GB" => Except.ok MemType.GB
  | _ => Except.error ("unknown variant for field `" ++ k ++ "`")

/-- Modelled from the spec: the serde `Deserialize` derive for `Config`
lives in the missing `src/types.rs`. Per §4.1 and §6 every field is
mandatory and parsing is all-or-nothing: any missing field, wrong type,
or unknown enum variant is a parse error; fields are never filled from
defaults. (Exact error strings of the `toml` crate are external; the
model's errors name the offending field.) -/
def Config.fromToml (doc : TomlDoc) : Except String Config := do
  let show_os ← getBool doc "show_os"
  let show_hostname ← getBool doc "show_hostname"
  let show_uptime ← getBool doc "show_uptime"
  let show_kernel_version ← getBool doc "show_kernel_version"
  let show_memory ← getBool doc "show_memory"
  let show_swap ← getBool doc "show_swap"
  let show_de ← getBool doc "show_de"
  let show_colors ← getBool doc "show_colors"
  let show_cpu ← getBool doc "show_cpu"
  let show_cores ← getBool doc "show_cores"
  let show_disks ← getBool doc "show_disks"
  let show_temperature ← getBool doc "show_temperature"
  let colors_height ← getNat doc "colors_height"
  let colors_width ← getNat doc "colors_width"
  let uptime_type ← getTime doc "uptime_type"
  let memory_type ← getMemType doc "memory_type"
  Except.ok
    { show_os, show_hostname, show_uptime, show_kernel_version,
      show_memory, show_swap, show_de, show_colors, show_cpu,
      show_cores, show_disks, show_temperature, colors_height,
      colors_width, uptime_type, memory_type }

/-- The compiled-in default document, transcribed from the raw string
literal `default_config` in `Config::new` (src/conf.rs lines 19–36). -/
def default_config : TomlDoc :=
  [("show_os", TomlVal.bool true),
   ("show_hostname", TomlVal.bool true),
   ("show_uptime", TomlVal.bool true),
   ("show_kernel_version", TomlVal.bool true),
   ("show_memory", TomlVal.bool true),
   ("show_swap", TomlVal.bool true),
   ("show_de", TomlVal.bool true),
   ("show_colors", TomlVal.bool true),
   ("show_cpu", TomlVal.bool true),
   ("show_cores", TomlVal.bool true),
   ("show_disks", TomlVal.bool true),
   ("show_temperature", TomlVal.bool false),
   ("colors_height", TomlVal.int 3),
   ("colors_width", TomlVal.int 3),
   ("uptime_type", TomlVal.str "Minute"),
   ("memory_type", TomlVal.str "GB")]

/-- The Config value the default document parses to. -/
def default_config_parsed : Config :=
  ⟨true, true, true, true, true, true, true, true, true, true, true,
   false, 3, 3, Time.Minute, MemType.GB⟩

/-- Outcome of the file-system interaction of `Config::new` for the
expected config path: the path may be absent, fail to open, fail in
`read_to_string` (the buffer then holds whatever was read before the
failure — possibly nothing), or read fully. The buffered/complete
contents are given already lexed (`Except.error` for TOML syntax
errors, `Except.ok` for a well-formed key/value document). -/
inductive FsOutcome
  | absent
  | openFail
  | readFail (buffered : Except String TomlDoc)
  | readOk (contents : Except String TomlDoc)

/-- Models `toml::from_str::<Config>` on lexed contents. -/
def toml_from_str (c : Except String TomlDoc) : Except String Config :=
  match c with
  | Except.error e => Except.error e
  | Except.ok doc => Config.fromToml doc

/-- The fallback notice printed first on a parse failure
(src/conf.rs lines 56–60). -/
def warnNoticeLine : Line :=
  [boldPaint Color.red "Error in config, falling back to default config."]

/-- The parse-error line with the line/column caveat, printed second on
a parse failure (src/conf.rs lines 61–65). -/
def warnErrLine (e : String) : Line :=
  [boldPaint Color.red e, plainSeg " ",
   boldPaint Color.blue "(line, column may differ from actual)"]

/-- Models `toml::from_str(default_config).unwrap()`: `none` is the
panic. -/
def unwrapDefault : Option Config := (Config.fromToml default_config).toOption

/-- Models the `match toml::from_str(&contents)` at src/conf.rs
lines 53–68: on success the parsed config is returned with no output;
on failure the two warning lines are printed and the default document
is parsed and returned (its `unwrap` modelled by `Option`). -/
def parseContents (contents : Except String TomlDoc) : Option (List Line × Config) :=
  match toml_from_str contents with
  | Except.ok cfg => some ([], cfg)
  | Except.error e => unwrapDefault.map (fun d => ([warnNoticeLine, warnErrLine e], d))

/-- Models `Config::new` (src/conf.rs lines 16–77) as a function of the
file-system outcome. Result: the lines printed and the returned config,
or `none` for a panic.

The parameter `unitParseOk` abstracts the external `toml` crate's
behavior on the discarded expression at line 50,
`toml::from_str::<()>(default_config).unwrap()`: the `Err` arm of the
`read_to_string` match is in statement position, so its value is
dropped and only its potential panic (`unitParseOk = false`) is
observable; in either case execution falls through to parse the
partially-read buffer. -/
def Config.new (unitParseOk : Bool) (fs : FsOutcome) : Option (List Line × Config) :=
  match fs with
  | FsOutcome.absent => unwrapDefault.map (fun d => ([], d))
  | FsOutcome.openFail => unwrapDefault.map (fun d => ([], d))
  | FsOutcome.readFail buffered =>
    if unitParseOk then parseContents buffered else none
  | FsOutcome.readOk contents => parseContents contents

/-- One disk of the snapshot (`sysinfo::Disk`): name, total bytes,
available bytes (`u64` modelled as `Nat`). -/
structure Disk where
  name : String
  total_space : Nat
  available_space : Nat
deriving DecidableEq

/-- The immutable system-facts snapshot (`sysinfo::System`), captured
once at startup. `components` pairs each sensor label with the text its
`f32` temperature renders to (the `f32` `Display` itself is not
modelled; no claim depends on it). -/
structure System where
  host_name : Option String
  long_os_version : Option String
  uptime : Nat
  kernel_version : Option String
  cpu_brand : String
  cpus_len : Nat
  disks : List Disk
  used_memory : Nat
  total_memory : Nat
  used_swap : Nat
  total_swap : Nat
  components : List (String × String)

/-- Models `Config::get_user` (src/conf.rs lines 317–332) on the bytes
the user-lookup utility wrote to stdout, given here UTF-8 decoded. If
the decoded output ends with a newline, one element — the final
one-byte `'\n'` — is popped from the buffer; otherwise the output is
returned unchanged. (`ends_with("\n")` on the decoded string is exactly
a last-character check.) -/
def Config.get_user (stdout : List Char) : String :=
  if stdout.getLast? = some '\n' then String.mk stdout.dropLast
  else String.mk stdout

/-- The 30-dash separator rule `"-".repeat(30)` (src/conf.rs line 97). -/
def separatorRule : String := String.mk (List.replicate 30 '-')

/-- Models `Config::print_hostname` (src/conf.rs lines 142–146). -/
def Config.print_hostname (host_name : Option String) : List Line :=
  match host_name with
  | some h => [[boldPaint Color.blue "Host:", plainSeg (" " ++ h)]]
  | none => []

/-- Models the identity-header block of `Config::print` (src/conf.rs
lines 84–99): when `show_hostname` is set, the `user@host` line is
printed only if the hostname is present, then the separator rule is
printed unconditionally, then the `Host:` line. -/
def Config.headerSection (c : Config) (whoamiOut : List Char) (sys : System) : List Line :=
  if c.show_hostname then
    (match sys.host_name with
     | some h =>
       [[boldPaint Color.blue (Config.get_user whoamiOut), plainSeg "@",
         boldPaint Color.blue h]]
     | none => [])
    ++ [[plainSeg separatorRule]]
    ++ Config.print_hostname sys.host_name
  else []

/-- Models `Config::print_os` (src/conf.rs lines 148–154). -/
def Config.print_os (sys : System) : List Line :=
  match sys.long_os_version with
  | some os => [[boldPaint Color.blue "OS:", plainSeg (" " ++ os)]]
  | none => []

/-- Models `Config::print_desktop_environment` (src/conf.rs
lines 338–352). The desktop-session indicator is read with
`option_env!("DESKTOP_SESSION")`, a compile-time lookup baked into the
binary (`desktopSessionAtBuild`); the runtime process environment
(`_runtimeEnvLookup`) is never consulted, which the unused parameter
makes explicit. On non-Linux targets nothing is printed. -/
def Config.print_desktop_environment (targetLinux : Bool)
    (desktopSessionAtBuild : Option String)
    (_runtimeEnvLookup : String → Option String) : List Line :=
  if targetLinux then
    match desktopSessionAtBuild with
    | some val => [[boldPaint Color.blue "DE:", plainSeg (" " ++ val)]]
    | none => []
  else []

/-- Models `Config::print_uptime` (src/conf.rs lines 156–175).
`Second` prints the raw `u64` with `{:.2}` — Rust ignores the precision
for integers, so no decimal digits appear; `Minute` and `Hour` divide
as `f64` and render with two decimals. The label quirk is preserved:
`Second` and `Hour` paint `"Uptime: "` with a trailing space, `Minute`
paints `"Uptime:"`. -/
def Config.print_uptime (c : Config) (sys : System) : List Line :=
  match c.uptime_type with
  | Time.Second =>
    [[boldPaint Color.blue "Uptime: ",
      plainSeg (" " ++ natDec sys.uptime ++ " sec(s)")]]
  | Time.Minute =>
    [[boldPaint Color.blue "Uptime:",
      plainSeg (" " ++ fmt2Frac sys.uptime 60 ++ " min(s)")]]
  | Time.Hour =>
    [[boldPaint Color.blue "Uptime: ",
      plainSeg (" " ++ fmt2Frac sys.uptime 3600 ++ " hour(s)")]]

/-- Models `Config::print_kernel_ver` (src/conf.rs lines 177–182). -/
def Config.print_kernel_ver (sys : System) : List Line :=
  match sys.kernel_version with
  | some kv => [[boldPaint Color.blue "Kernel Version:", plainSeg (" " ++ kv)]]
  | none => []

/-- Models `Config::print_cpu` (src/conf.rs lines 184–196): the brand
string, with the logical core count appended in parentheses when
`show_cores` is also set. -/
def Config.print_cpu (c : Config) (sys : System) : List Line :=
  if c.show_cores then
    [[boldPaint Color.blue "CPU:", plainSeg (" " ++ sys.cpu_brand),
      plainSeg (" (" ++ natDec sys.cpus_len ++ ")")]]
  else
    [[boldPaint Color.blue "CPU:", plainSeg (" " ++ sys.cpu_brand)]]

/-- Models Rust's `u64` subtraction at src/conf.rs line 204: defined
only when no underflow occurs; `none` models the overflow panic. -/
def subU64 (a b : Nat) : Option Nat := if b ≤ a then some (a - b) else none

/-- One disk line of `Config::print_disks`: name, then used and total
space divided by `1024^3 = 1073741824` (the source writes the divisor
as `1024.0 * 1024.0 * 1024.0` for used and `(1024 * 1024 * 1024) as
f64` for total), both with two decimals. -/
def diskLine (d : Disk) (used : Nat) : Line :=
  [boldPaint Color.blue "Disk", plainSeg ": ",
   boldPaint Color.yellow d.name,
   plainSeg (" (" ++ fmt2Frac used 1073741824 ++ " GB / " ++
     fmt2Frac d.total_space 1073741824 ++ " GB)")]

/-- Models `Config::print_disks` (src/conf.rs lines 198–208): one line
per disk in snapshot order, used space computed by the unchecked
subtraction `total_space - available_space`; `none` models the panic of
an underflowing iteration. -/
def Config.print_disks (sys : System) : Option (List Line) :=
  sys.disks.mapM fun d =>
    (subU64 d.total_space d.available_space).map fun used => diskLine d used

/-- The divisor `Config::print_mem`/`print_swap` use for each unit:
`1e+3`, `1e+6`, `1e+9`. -/
def memDivisor : MemType → Nat
  | MemType.KB => 1000
  | MemType.MB => 1000000
  | MemType.GB => 1000000000

/-- The unit suffix printed for each `MemType`. -/
def memUnit : MemType → String
  | MemType.KB => "KB"
  | MemType.MB => "MB"
  | MemType.GB => "GB"

/-- Models `Config::print_mem` (src/conf.rs lines 210–235): used and
total memory bytes divided by the unit divisor, two decimals each. -/
def Config.print_mem (c : Config) (sys : System) : List Line :=
  match c.memory_type with
  | MemType.KB =>
    [[boldPaint Color.blue "Memory:",
      plainSeg (" " ++ fmt2Frac sys.used_memory 1000 ++ " KB / " ++
        fmt2Frac sys.total_memory 1000 ++ " KB")]]
  | MemType.MB =>
    [[boldPaint Color.blue "Memory:",
      plainSeg (" " ++ fmt2Frac sys.used_memory 1000000 ++ " MB / " ++
        fmt2Frac sys.total_memory 1000000 ++ " MB")]]
  | MemType.GB =>
    [[boldPaint Color.blue "Memory:",
      plainSeg (" " ++ fmt2Frac sys.used_memory 1000000000 ++ " GB / " ++
        fmt2Frac sys.total_memory 1000000000 ++ " GB")]]

/-- Models `Config::print_swap` (src/conf.rs lines 237–263): swap bytes
with the same `memory_type` unit selector as the memory section (the
stray `global_cpu_info().brand()` call at line 238 has no observable
effect and is not modelled). -/
def Config.print_swap (c : Config) (sys : System) : List Line :=
  match c.memory_type with
  | MemType.KB =>
    [[boldPaint Color.blue "Swap:",
      plainSeg (" " ++ fmt2Frac sys.used_swap 1000 ++ " KB / " ++
        fmt2Frac sys.total_swap 1000 ++ " KB")]]
  | MemType.MB =>
    [[boldPaint Color.blue "Swap:",
      plainSeg (" " ++ fmt2Frac sys.used_swap 1000000 ++ " MB / " ++
        fmt2Frac sys.total_swap 1000000 ++ " MB")]]
  | MemType.GB =>
    [[boldPaint Color.blue "Swap:",
      plainSeg (" " ++ fmt2Frac sys.used_swap 1000000000 ++ " GB / " ++
        fmt2Frac sys.total_swap 1000000000 ++ " GB")]]

/-- The first fixed swatch row of `Config::print_colors`: red, green,
blue, yellow solid blocks, each the rendering of
`format!("{:width$}", width = colors_width * 2 + 1)`. -/
def colorsRow1 (w : Nat) : Line :=
  [solidBlock Color.red (formatWidthVal (w * 2 + 1)),
   solidBlock Color.green (formatWidthVal (w * 2 + 1)),
   solidBlock Color.blue (formatWidthVal (w * 2 + 1)),
   solidBlock Color.yellow (formatWidthVal (w * 2 + 1))]

/-- The second fixed swatch row of `Config::print_colors`: black,
white, purple (ANSI magenta), cyan solid blocks. -/
def colorsRow2 (w : Nat) : Line :=
  [solidBlock Color.black (formatWidthVal (w * 2 + 1)),
   solidBlock Color.white (formatWidthVal (w * 2 + 1)),
   solidBlock Color.purple (formatWidthVal (w * 2 + 1)),
   solidBlock Color.cyan (formatWidthVal (w * 2 + 1))]

/-- Models `Config::print_colors` (src/conf.rs lines 265–297): the
first row printed `colors_height` times, then the second row printed
`colors_height` times. -/
def Config.print_colors (c : Config) : List Line :=
  List.replicate c.colors_height (colorsRow1 c.colors_width)
  ++ List.replicate c.colors_height (colorsRow2 c.colors_width)

/-- Models `Config::print_temps` (src/conf.rs lines 299–315): a blank
line, the header, a 20-dash rule, one line per sensor, a blank line. -/
def Config.print_temps (sys : System) : List Line :=
  [[]]
  ++ [[boldPaint Color.red "Temperature"]]
  ++ [[boldPaint Color.red (String.mk (List.replicate 20 '-'))]]
  ++ (sys.components.map fun p =>
        [boldPaint Color.blue p.1, plainSeg (": " ++ p.2 ++ "°C")])
  ++ [[]]

/-- Models `Config::print` (src/conf.rs lines 83–140): the sections in
their fixed order, each gated by its toggle; `none` models the panic a
disk underflow would raise (the source prints earlier sections before
panicking — that prefix is not modelled, only claims about complete
runs use this). -/
def Config.print (c : Config) (whoamiOut : List Char) (targetLinux : Bool)
    (desktopSessionAtBuild : Option String)
    (runtimeEnvLookup : String → Option String) (sys : System) :
    Option (List Line) :=
  match (if c.show_disks then Config.print_disks sys else some []) with
  | none => none
  | some diskLines =>
    some (Config.headerSection c whoamiOut sys
      ++ (if c.show_os then Config.print_os sys else [])
      ++ (if c.show_de then
            Config.print_desktop_environment targetLinux
              desktopSessionAtBuild runtimeEnvLookup
          else [])
      ++ (if c.show_uptime then Config.print_uptime c sys else [])
      ++ (if c.show_kernel_version then Config.print_kernel_ver sys else [])
      ++ diskLines
      ++ (if c.show_cpu then Config.print_cpu c sys else [])
      ++ (if c.show_memory then Config.print_mem c sys else [])
      ++ (if c.show_swap then Config.print_swap c sys else [])
      ++ (if c.show_temperature then Config.print_temps sys else [])
      ++ (if c.show_colors then Config.print_colors c else []))

/-- The number of trailing newline characters of a buffer. -/
def trailingNewlines (l : List Char) : Nat :=
  (l.reverse.takeWhile fun c => c == '\n').length

/-- A string that ends in a decimal point followed by exactly two
digits: the shape `{:.2}` float formatting guarantees. -/
def hasTwoDecimals (s : String) : Prop :=
  ∃ t u : String,
    s = t ++ "." ++ u ∧ u.length = 2 ∧ (u.data.all fun c => c.isDigit) = true

theorem natDecAux_length_le (fuel : Nat) :
    ∀ n : Nat, 1 ≤ n → (natDecAux fuel n).length ≤ n := by
  induction fuel with
  | zero => intro n _; simp [natDecAux]
  | succ f ih =>
    intro n hn
    by_cases h10 : n < 10
    · simp [natDecAux, h10]
      omega
    · push_neg at h10
      have h10' : ¬ n < 10 := by omega
      have hq1 : 1 ≤ n / 10 := (Nat.one_le_div_iff (by norm_num)).2 h10
      have hlt : n / 10 < n := Nat.div_lt_self (by omega) (by norm_num)
      have hrec := ih (n / 10) hq1
      simp [natDecAux, h10']
      omega

theorem natDecL_length_le (n : Nat) (h : 1 ≤ n) : (natDecL n).length ≤ n :=
  natDecAux_length_le (n + 1) n h

theorem formatWidthVal_length (n : Nat) (h : 1 ≤ n) :
    (formatWidthVal n).length = n := by
  have hle := natDecL_length_le n h
  simp [formatWidthVal, String.length]
  omega

theorem pad2_spec :
    ∀ m, m < 100 →
      (pad2 m).length = 2 ∧ ((pad2 m).data.all fun c => c.isDigit) = true := by
  decide

theorem fmt2Frac_hasTwoDecimals (n d : Nat) : hasTwoDecimals (fmt2Frac n d) := by
  refine ⟨natDec (centsOf n d / 100), pad2 (centsOf n d % 100), rfl, ?_, ?_⟩
  · exact (pad2_spec _ (Nat.mod_lt _ (by norm_num))).1
  · exact (pad2_spec _ (Nat.mod_lt _ (by norm_num))).2

theorem natDec_agrees_with_repr : ∀ n, n < 100 → natDec n = Nat.repr n := by
  decide

theorem trailingNewlines_concat (l : List Char) :
    trailingNewlines (l ++ ['\n']) = trailingNewlines l + 1 := by
  simp [trailingNewlines, List.takeWhile_cons]

theorem unwrapDefault_eq : unwrapDefault = some default_config_parsed := rfl

theorem mapM_disks_eq (l : List Disk) :
    (∀ d ∈ l, d.available_space ≤ d.total_space) →
    (l.mapM fun d =>
        (subU64 d.total_space d.available_space).map fun used => diskLine d used)
      = some (l.map fun d => diskLine d (d.total_space - d.available_space)) := by
  induction l with
  | nil => intro _; rfl
  | cons d t ih =>
    intro h
    have hd : d.available_space ≤ d.total_space := h d (List.mem_cons_self d t)
    have ht := ih fun x hx => h x (List.mem_cons_of_mem d hx)
    have hsub : subU64 d.total_space d.available_space
        = some (d.total_space - d.available_space) := if_pos hd
    rw [List.mapM_cons, ht, hsub]
    rfl

/-- An empty snapshot used as a base for concrete test inputs. -/
def sys0 : System := ⟨none, none, 0, none, "", 0, [], 0, 0, 0, 0, []⟩

/-- A document declaring only `show_os = true`: a strict subset of the
required fields. -/
def onlyShowOsDoc : TomlDoc := [("show_os", TomlVal.bool true)]

/-- C1, counterexample: with `show_hostname` on and the hostname absent
from the snapshot, the identity-header section is not skipped entirely —
the 30-dash separator rule is still printed (src/conf.rs line 97 sits
outside the `if let`), so the section's output is nonempty. -/
theorem c1_counterexample :
    Config.headerSection default_config_parsed [] sys0 = [[plainSeg separatorRule]]
    ∧ ([[plainSeg separatorRule]] : List Line) ≠ ([] : List Line) :=
  ⟨rfl, by decide⟩

/-- C1, amended: when `show_hostname` is set and the hostname is
unavailable from the snapshot, the `user@hostname` header line and the
`Host:` line are skipped, but the fixed-width separator rule is still
printed — the section's output is exactly the separator line. -/
theorem c1_header_separator (c : Config) (whoamiOut : List Char) (sys : System)
    (hshow : c.show_hostname = true) (hhost : sys.host_name = none) :
    Config.headerSection c whoamiOut sys = [[plainSeg separatorRule]] := by
  simp [Config.headerSection, hshow, hhost, Config.print_hostname]

/-- C1, witness: the amended statement at a concrete config and
snapshot. -/
theorem c1_header_separator_witness :
    Config.headerSection default_config_parsed ['u'] { sys0 with uptime := 42 }
      = [[plainSeg separatorRule]] :=
  c1_header_separator default_config_parsed ['u'] { sys0 with uptime := 42 } rfl rfl

/-- C2: a readable-but-unreadable-contents failure is NOT recovered
silently. The `Err` arm of the `read_to_string` match (src/conf.rs
line 50) discards the default-config value it computes, so execution
falls through to parse the partially-read buffer: if the discarded
`toml::from_str::<()>(default_config).unwrap()` panics the run aborts
(`none`), and otherwise the empty buffer fails to parse and the two
warning lines are printed before the default is returned — either way
the claimed silent default return does not happen. -/
theorem c2_read_failure_not_silent :
    Config.new false (FsOutcome.readFail (Except.ok [])) = none
    ∧ Config.new true (FsOutcome.readFail (Except.ok []))
        = some ([warnNoticeLine, warnErrLine "missing field `show_os`"],
            default_config_parsed)
    ∧ [warnNoticeLine, warnErrLine "missing field `show_os`"] ≠ ([] : List Line) :=
  ⟨rfl, rfl, by decide⟩

/-- C4, counterexample: on a partial document the code prints the
fallback notice FIRST and the parse-error line (with the line/column
caveat) SECOND — not the claimed order of a parse-error warning
followed by the fallback notice. -/
theorem c4_counterexample :
    Config.new true (FsOutcome.readOk (Except.ok onlyShowOsDoc))
      = some ([warnNoticeLine, warnErrLine "missing field `show_hostname`"],
          default_config_parsed)
    ∧ ([warnNoticeLine, warnErrLine "missing field `show_hostname`"] : List Line)
        ≠ [warnErrLine "missing field `show_hostname`", warnNoticeLine] :=
  ⟨rfl, by decide⟩

/-- C4, amended: on any parse failure (syntax error or partial
document) the resolver prints the fallback notice first, then a line
naming the parse error together with the approximate-position caveat,
and returns the parsed compiled-in default document; a document with
only a subset of the required fields is a parse failure, never filled
from defaults field-by-field. -/
theorem c4_parse_failure_warning :
    (∀ (unitParseOk : Bool) (contents : Except String TomlDoc) (e : String),
        toml_from_str contents = Except.error e →
        Config.new unitParseOk (FsOutcome.readOk contents)
          = some ([warnNoticeLine, warnErrLine e], default_config_parsed))
    ∧ Config.fromToml onlyShowOsDoc
        = Except.error "missing field `show_hostname`" := by
  constructor
  · intro b contents e h
    show parseContents contents = _
    simp [parseContents, h, unwrapDefault_eq]
  · rfl

/-- C4, witness: the amended statement at a concrete syntactically
malformed file. -/
theorem c4_parse_failure_warning_witness :
    Config.new true (FsOutcome.readOk (Except.error "unexpected keyword"))
      = some ([warnNoticeLine, warnErrLine "unexpected keyword"],
          default_config_parsed) :=
  c4_parse_failure_warning.1 true (Except.error "unexpected keyword")
    "unexpected keyword" rfl

/-- C7: for a non-existent config path, `Config::new` returns the
parsed compiled-in default document, which parses successfully and is,
field for field, all toggles on except `show_temperature`, swatch
height and width 3, `Minute` uptime unit, `GB` memory unit. -/
theorem c7_default_fallback :
    Config.fromToml default_config = Except.ok default_config_parsed
    ∧ (∀ unitParseOk : Bool,
        Config.new unitParseOk FsOutcome.absent
          = some ([], default_config_parsed))
    ∧ default_config_parsed
        = ⟨true, true, true, true, true, true, true, true, true, true, true,
           false, 3, 3, Time.Minute, MemType.GB⟩ := by
  refine ⟨rfl, ?_, rfl⟩
  intro b
  rfl

theorem getLast_split :
    ∀ (l : List Char) (c : Char), l.getLast? = some c → l.dropLast ++ [c] = l := by
  intro l
  induction l with
  | nil => intro c h; simp at h
  | cons a t ih =>
    intro c h
    cases t with
    | nil =>
      simp at h
      simp [h]
    | cons b u =>
      have h' : (b :: u).getLast? = some c := by simpa using h
      have ht := ih c h'
      rw [show (a :: b :: u).dropLast = a :: (b :: u).dropLast from rfl,
        List.cons_append, ht]

/-- C3, counterexample: in Second mode with uptime 3600 the rendered
number is the bare integer `3600` — Rust's `{:.2}` ignores precision
for integer arguments — not the claimed `3600.00`. -/
theorem c3_counterexample :
    Config.print_uptime { default_config_parsed with uptime_type := Time.Second }
        { sys0 with uptime := 3600 }
      = [[boldPaint Color.blue "Uptime: ", plainSeg " 3600 sec(s)"]]
    ∧ (" 3600 sec(s)" : String) ≠ " 3600.00 sec(s)" := by
  exact ⟨by decide, by decide⟩

/-- C3, amended: the uptime section converts per `uptime_type` —
Second prints the raw seconds as an integer with NO decimal digits,
Minute prints seconds/60 and Hour prints seconds/3600, each with
exactly two decimal digits; for uptime 3600, Second renders `3600`,
Minute renders `60.00`, Hour renders `1.00`. -/
theorem c3_uptime_rendering (c : Config) (sys : System) :
    (c.uptime_type = Time.Second →
      Config.print_uptime c sys
        = [[boldPaint Color.blue "Uptime: ",
            plainSeg (" " ++ natDec sys.uptime ++ " sec(s)")]])
    ∧ (c.uptime_type = Time.Minute →
      Config.print_uptime c sys
        = [[boldPaint Color.blue "Uptime:",
            plainSeg (" " ++ fmt2Frac sys.uptime 60 ++ " min(s)")]])
    ∧ (c.uptime_type = Time.Hour →
      Config.print_uptime c sys
        = [[boldPaint Color.blue "Uptime: ",
            plainSeg (" " ++ fmt2Frac sys.uptime 3600 ++ " hour(s)")]])
    ∧ hasTwoDecimals (fmt2Frac sys.uptime 60)
    ∧ hasTwoDecimals (fmt2Frac sys.uptime 3600)
    ∧ natDec 3600 = "3600"
    ∧ fmt2Frac 3600 60 = "60.00"
    ∧ fmt2Frac 3600 3600 = "1.00" := by
  refine ⟨?_, ?_, ?_, fmt2Frac_hasTwoDecimals _ _, fmt2Frac_hasTwoDecimals _ _,
    by decide, by decide, by decide⟩
  all_goals intro h
  all_goals simp [Config.print_uptime, h]

/-- C3, witness: the amended statement applied in Hour mode at uptime
3600 renders `1.00`. -/
theorem c3_uptime_rendering_witness :
    Config.print_uptime { default_config_parsed with uptime_type := Time.Hour }
        { sys0 with uptime := 3600 }
      = [[boldPaint Color.blue "Uptime: ", plainSeg " 1.00 hour(s)"]] := by
  have h := (c3_uptime_rendering
    { default_config_parsed with uptime_type := Time.Hour }
    { sys0 with uptime := 3600 }).2.2.1 rfl
  exact h.trans (by decide)

/-- C5: the color-swatch section prints the red/green/blue/yellow row
`colors_height` times, then the black/white/purple(magenta)/cyan row
`colors_height` times, each row four blocks, every block exactly
`2 * colors_width + 1` characters wide; with height 2 and width 3 this
is the two fixed rows each printed twice, four blocks per line, each
block 7 characters wide. -/
theorem c5_color_swatches (c : Config) :
    Config.print_colors c
      = List.replicate c.colors_height (colorsRow1 c.colors_width)
        ++ List.replicate c.colors_height (colorsRow2 c.colors_width)
    ∧ (colorsRow1 c.colors_width).map Seg.fg
        = [some Color.red, some Color.green, some Color.blue, some Color.yellow]
    ∧ (colorsRow1 c.colors_width).map Seg.bg
        = [some Color.red, some Color.green, some Color.blue, some Color.yellow]
    ∧ (colorsRow2 c.colors_width).map Seg.fg
        = [some Color.black, some Color.white, some Color.purple, some Color.cyan]
    ∧ (colorsRow2 c.colors_width).map Seg.bg
        = [some Color.black, some Color.white, some Color.purple, some Color.cyan]
    ∧ ((colorsRow1 c.colors_width ++ colorsRow2 c.colors_width).all
        fun s => s.text.length == 2 * c.colors_width + 1) = true
    ∧ Config.print_colors { c with colors_height := 2, colors_width := 3 }
        = [colorsRow1 3, colorsRow1 3, colorsRow2 3, colorsRow2 3]
    ∧ (colorsRow1 3).length = 4
    ∧ (colorsRow2 3).length = 4
    ∧ ((colorsRow1 3 ++ colorsRow2 3).all fun s => s.text.length == 7) = true := by
  have hw := formatWidthVal_length (c.colors_width * 2 + 1) (by omega)
  refine ⟨rfl, rfl, rfl, rfl, rfl, ?_, rfl, rfl, rfl, by decide⟩
  simp [colorsRow1, colorsRow2, solidBlock, hw]
  omega

/-- C6: the memory and swap sections divide used/total bytes by 1e3
(KB), 1e6 (MB), or 1e9 (GB) according to the shared `memory_type`
selector, rendering two decimal digits; 1,000,000,000 / 2,000,000,000
bytes render as `1.00 GB / 2.00 GB` in GB mode and
`1000.00 MB / 2000.00 MB` in MB mode. -/
theorem c6_memory_swap_conversion (c : Config) (sys : System) :
    (c.memory_type = MemType.KB →
      Config.print_mem c sys
        = [[boldPaint Color.blue "Memory:",
            plainSeg (" " ++ fmt2Frac sys.used_memory 1000 ++ " KB / " ++
              fmt2Frac sys.total_memory 1000 ++ " KB")]]
      ∧ Config.print_swap c sys
        = [[boldPaint Color.blue "Swap:",
            plainSeg (" " ++ fmt2Frac sys.used_swap 1000 ++ " KB / " ++
              fmt2Frac sys.total_swap 1000 ++ " KB")]])
    ∧ (c.memory_type = MemType.MB →
      Config.print_mem c sys
        = [[boldPaint Color.blue "Memory:",
            plainSeg (" " ++ fmt2Frac sys.used_memory 1000000 ++ " MB / " ++
              fmt2Frac sys.total_memory 1000000 ++ " MB")]]
      ∧ Config.print_swap c sys
        = [[boldPaint Color.blue "Swap:",
            plainSeg (" " ++ fmt2Frac sys.used_swap 1000000 ++ " MB / " ++
              fmt2Frac sys.total_swap 1000000 ++ " MB")]])
    ∧ (c.memory_type = MemType.GB →
      Config.print_mem c sys
        = [[boldPaint Color.blue "Memory:",
            plainSeg (" " ++ fmt2Frac sys.used_memory 1000000000 ++ " GB / " ++
              fmt2Frac sys.total_memory 1000000000 ++ " GB")]]
      ∧ Config.print_swap c sys
        = [[boldPaint Color.blue "Swap:",
            plainSeg (" " ++ fmt2Frac sys.used_swap 1000000000 ++ " GB / " ++
              fmt2Frac sys.total_swap 1000000000 ++ " GB")]])
    ∧ fmt2Frac 1000000000 1000000000 = "1.00"
    ∧ fmt2Frac 2000000000 1000000000 = "2.00"
    ∧ fmt2Frac 1000000000 1000000 = "1000.00"
    ∧ fmt2Frac 2000000000 1000000 = "2000.00"
    ∧ hasTwoDecimals (fmt2Frac sys.used_memory 1000000000)
    ∧ hasTwoDecimals (fmt2Frac sys.used_swap 1000000000) := by
  refine ⟨?_, ?_, ?_, by decide, by decide, by decide, by decide,
    fmt2Frac_hasTwoDecimals _ _, fmt2Frac_hasTwoDecimals _ _⟩
  all_goals intro h
  all_goals exact ⟨by simp [Config.print_mem, h], by simp [Config.print_swap, h]⟩

/-- C6, witness: GB and MB modes at the concrete byte counts. -/
theorem c6_memory_swap_conversion_witness :
    Config.print_mem default_config_parsed
        { sys0 with used_memory := 1000000000, total_memory := 2000000000 }
      = [[boldPaint Color.blue "Memory:", plainSeg " 1.00 GB / 2.00 GB"]]
    ∧ Config.print_mem { default_config_parsed with memory_type := MemType.MB }
        { sys0 with used_memory := 1000000000, total_memory := 2000000000 }
      = [[boldPaint Color.blue "Memory:", plainSeg " 1000.00 MB / 2000.00 MB"]] := by
  constructor
  · have h := (c6_memory_swap_conversion default_config_parsed
      { sys0 with used_memory := 1000000000, total_memory := 2000000000 }).2.2.1 rfl
    exact h.1.trans (by decide)
  · have h := (c6_memory_swap_conversion
      { default_config_parsed with memory_type := MemType.MB }
      { sys0 with used_memory := 1000000000, total_memory := 2000000000 }).2.1 rfl
    exact h.1.trans (by decide)

/-- C8: `get_user` strips exactly one trailing newline when the
utility's output ends with one — the remaining buffer plus a single
`'\n'` reconstructs the original, and the trailing-newline count drops
by exactly one — and returns the output unchanged otherwise. -/
theorem c8_get_user_strips_one_newline (stdout : List Char) :
    (stdout.getLast? = some '\n' →
      Config.get_user stdout = String.mk stdout.dropLast
      ∧ stdout.dropLast ++ ['\n'] = stdout
      ∧ trailingNewlines stdout.dropLast + 1 = trailingNewlines stdout)
    ∧ (stdout.getLast? ≠ some '\n' →
      Config.get_user stdout = String.mk stdout) := by
  constructor
  · intro h
    have hsplit := getLast_split stdout '\n' h
    refine ⟨by simp [Config.get_user, h], hsplit, ?_⟩
    conv_rhs => rw [← hsplit]
    rw [trailingNewlines_concat]
  · intro h
    simp [Config.get_user, h]

/-- C8, witness: on output `"a\n\n"` exactly one of the two trailing
newlines is stripped. -/
theorem c8_get_user_strips_one_newline_witness :
    Config.get_user ['a', '\n', '\n'] = String.mk ['a', '\n']
    ∧ trailingNewlines (['a', '\n', '\n'].dropLast) + 1
        = trailingNewlines ['a', '\n', '\n'] := by
  have h := (c8_get_user_strips_one_newline ['a', '\n', '\n']).1 (by decide)
  exact ⟨h.1.trans (by decide), h.2.2⟩

/-- C9: under the precondition that every disk's available space is at
most its total space, the unchecked subtraction
`total_space - available_space` never underflows (no panic) and each
disk line renders used and total space divided by `1024^3` with two
decimal digits. -/
theorem c9_disks_no_underflow (sys : System)
    (h : ∀ d ∈ sys.disks, d.available_space ≤ d.total_space) :
    Config.print_disks sys
      = some (sys.disks.map fun d =>
          diskLine d (d.total_space - d.available_space)) :=
  mapM_disks_eq sys.disks h

/-- A concrete disk: 2 GiB total, 1 GiB available. -/
def diskA : Disk := ⟨"sda", 2147483648, 1073741824⟩

/-- C9, witness: the disk section of a one-disk snapshot renders
without panic. -/
theorem c9_disks_no_underflow_witness :
    Config.print_disks { sys0 with disks := [diskA] }
      = some [diskLine diskA 1073741824] := by
  have h := c9_disks_no_underflow { sys0 with disks := [diskA] } (by decide)
  exact h.trans (by decide)

/-- C10: the desktop-environment section reads the `DESKTOP_SESSION`
indicator baked in at compile time (`option_env!`); its output is a
function of the target platform and the baked value only, so two runs
of the same compiled binary under different runtime environments print
the same thing. -/
theorem c10_desktop_environment_env_independent (targetLinux : Bool)
    (desktopSessionAtBuild : Option String)
    (env1 env2 : String → Option String) :
    Config.print_desktop_environment targetLinux desktopSessionAtBuild env1
      = Config.print_desktop_environment targetLinux desktopSessionAtBuild env2 :=
  rfl
